import Mathlib

/-!
Shallow embedding of `src/api_client.py` (AnkiPH add-on API client) and
verification of its retry/backoff engine, error classification, credential
refresh and pagination aggregation.

Modelling conventions:
* Machine state that the Python code threads implicitly (headers, the access
  token, the config token store) is passed explicitly.
* One transport attempt is abstracted by an oracle `Nat → AttemptResult`
  giving the outcome of the n-th transport call of a logical request; the
  retry loop of `ApiClient.post` is a fuel-indexed recursion (the Python
  `for attempt in range(max_retries)` loop runs at most `max_retries`
  iterations, so fuel `max_retries` is exact).
* Observable side effects (transport calls with the headers they carry,
  sleeps, refresh invocations) are recorded in an event trace.
* `random.random()` is modelled as a rational parameter `r` with
  `0 ≤ r < 1`; floats are modelled as rationals.
-/

namespace AnkiPH

/-- `AnkiPHAPIError.is_auth_error` (src/api_client.py:145-147):
`self.status_code in (401, 403)`; a missing status code is never an auth
error. -/
def is_auth_error (status : Option Nat) : Bool :=
  match status with
  | some s => s == 401 || s == 403
  | none => false

/-- `AnkiPHAPIError.is_server_error` (src/api_client.py:149-151):
`self.status_code and 500 <= self.status_code < 600`; a `None` status code is
falsy, hence never a server error. -/
def is_server_error (status : Option Nat) : Bool :=
  match status with
  | some s => decide (500 ≤ s) && decide (s < 600)
  | none => false

/-- `exponential_backoff_with_jitter` (src/api_client.py:163-177):
`delay = min(base_delay * 2**attempt, max_delay); return delay * (0.5 + random.random() * 0.5)`.
The draw `random.random()` is the parameter `r` (a real in `[0, 1)`). -/
def exponential_backoff_with_jitter (attempt : Nat) (base_delay max_delay r : ℚ) : ℚ :=
  let delay := min (base_delay * 2 ^ attempt) max_delay
  delay * (1/2 + r * (1/2))

/-- Outcome of one transport-level call as classified by the transport
helpers and seen by the retry loop of `ApiClient.post`:
* `ok` — the helper returned parsed data;
* `rateLimitErr ra` — it raised `AnkiPHRateLimitError(retry_after=ra)`;
* `apiErr st` — it raised `AnkiPHAPIError(status_code=st)` (with
  `st = none` for the status-less transport/connectivity wrappers);
* `genericErr` — an exception that is not an `AnkiPHAPIError` escaped the
  helper (e.g. the `ValueError` from `int()` on a malformed header). -/
inductive AttemptResult where
  | ok
  | rateLimitErr (retry_after : Nat)
  | apiErr (status : Option Nat)
  | genericErr
  deriving DecidableEq

/-- Low-level outcome of `requests.post` inside `_post_with_requests`.
`retryAfterHeader` encodes the `Retry-After` header: `none` = absent,
`some none` = present but non-numeric, `some (some n)` = numeric value `n`.
`parses` says whether `resp.json()` succeeds. Note `resp.ok` in the
`requests` library means `status < 400`. -/
inductive ReqOutcome where
  | timeout
  | connectionFailure
  | otherNetworkExc
  | response (status : Nat) (retryAfterHeader : Option (Option Nat)) (parses : Bool)
  deriving DecidableEq

/-- `ApiClient._post_with_requests` (src/api_client.py:355-398).
Order of checks follows the source: exception wrapping first, then body
parsing, then the 429 check, then `resp.ok`. A malformed `Retry-After`
header makes `int(...)` raise `ValueError`, which is not an
`AnkiPHAPIError` and escapes the helper (`genericErr`). -/
def post_with_requests : ReqOutcome → AttemptResult
  | .timeout => .apiErr none
  | .connectionFailure => .apiErr none
  | .otherNetworkExc => .apiErr none
  | .response status retryAfterHeader parses =>
    if parses = false then .apiErr (some status)
    else if status == 429 then
      match retryAfterHeader with
      | none => .rateLimitErr 60
      | some (some n) => .rateLimitErr n
      | some none => .genericErr
    else if 400 ≤ status then .apiErr (some status)
    else .ok

/-- Low-level outcome of `urllib.request.urlopen` inside `_post_with_urllib`.
`urlopen` raises `HTTPError` for every status ≥ 400, so an HTTP 429 reaches
the code as `httpError 429 _ _`; `success` is the in-`with` path. Header
encoding as in `ReqOutcome`. -/
inductive UrlOutcome where
  | urlError
  | otherNetworkExc
  | httpError (code : Nat) (retryAfterHeader : Option (Option Nat)) (bodyParses : Bool)
  | success (code : Nat) (retryAfterHeader : Option (Option Nat)) (bodyParses : Bool)
  deriving DecidableEq

/-- `ApiClient._post_with_urllib` (src/api_client.py:400-470).
In the `success` (in-`with`) path every `raise` executed inside the outer
`try` — the invalid-JSON `AnkiPHAPIError`, the `AnkiPHRateLimitError` and
the ≥ 400 `AnkiPHAPIError` — is caught again by the trailing
`except Exception` clause and re-wrapped as a status-less
`AnkiPHAPIError(f"Network error: ...")`, hence `.apiErr none`.
In the `HTTPError` handler the `int()` conversion of `Retry-After` is
guarded by `try/except: pass`, so a malformed header falls back to 60. -/
def post_with_urllib : UrlOutcome → AttemptResult
  | .urlError => .apiErr none
  | .otherNetworkExc => .apiErr none
  | .success code _retryAfterHeader bodyParses =>
    if bodyParses = false then .apiErr none
    else if code == 429 then .apiErr none
    else if 400 ≤ code then .apiErr none
    else .ok
  | .httpError code retryAfterHeader _bodyParses =>
    if code == 429 then
      match retryAfterHeader with
      | none => .rateLimitErr 60
      | some (some n) => .rateLimitErr n
      | some none => .rateLimitErr 60
    else .apiErr (some code)

/-- Observable events of one `ApiClient.post` execution:
* `call tok` — one transport call carrying headers built from access token
  `tok` (`_headers`, src/api_client.py:219-224);
* `sleepRate n` — `_handle_rate_limit`: `time.sleep(retry_after)` for
  exactly `n` seconds, no jitter (src/api_client.py:232-240);
* `sleepBackoff a` — `time.sleep(exponential_backoff_with_jitter(a))`
  (src/api_client.py:292-294 and 303-305);
* `refreshCall` — an invocation of `_try_refresh_token`. -/
inductive Event where
  | call (token : Option Nat)
  | sleepRate (secs : Nat)
  | sleepBackoff (attempt : Nat)
  | refreshCall
  deriving DecidableEq

/-- Final outcome of `ApiClient.post`:
* `ok` — parsed body returned;
* `raisedRateLimit ra` — the `AnkiPHRateLimitError` re-raised verbatim;
* `raisedApi st` — an `AnkiPHAPIError(status_code=st)` re-raised;
* `raisedWrapped n` — `AnkiPHAPIError("Request failed after n attempts")`
  wrapping a non-API exception on the last attempt (src/api_client.py:309);
* `raisedMaxRetries` — `AnkiPHAPIError("Maximum retries exceeded")` after
  the loop exhausts (src/api_client.py:312). -/
inductive PostOutcome where
  | ok
  | raisedRateLimit (retry_after : Nat)
  | raisedApi (status : Option Nat)
  | raisedWrapped (attempts : Nat)
  | raisedMaxRetries
  deriving DecidableEq

/-- The retry loop of `ApiClient.post` (src/api_client.py:264-312), from
iteration `attempt` on, with headers currently built from token `tok`.
`oracle n` is the outcome of the transport call made in iteration `n`;
`refreshOk` is the boolean result of `_try_refresh_token`, and a successful
refresh installs `newTok` and rebuilds the headers
(src/api_client.py:284-288). `fuel` bounds the remaining iterations; the
caller `post` passes `max_retries`, which is exact, and running out of fuel
is the post-loop `raise AnkiPHAPIError("Maximum retries exceeded")`.
Branches mirror the source: the `except AnkiPHRateLimitError` handler, then
the `except AnkiPHAPIError` handler (auth check with `attempt == 0`, then
server-error check, then re-raise), then the generic `except Exception`
handler. -/
def postLoop (oracle : Nat → AttemptResult) (refreshOk : Bool) (newTok : Option Nat)
    (max_retries : Nat) : Option Nat → Nat → Nat → List Event × PostOutcome
  | _, _, 0 => ([], .raisedMaxRetries)
  | tok, attempt, fuel + 1 =>
    match oracle attempt with
    | .ok => ([.call tok], .ok)
    | .rateLimitErr ra =>
      if attempt < max_retries - 1 then
        let rest := postLoop oracle refreshOk newTok max_retries tok (attempt + 1) fuel
        (.call tok :: .sleepRate ra :: rest.1, rest.2)
      else
        ([.call tok], .raisedRateLimit ra)
    | .apiErr st =>
      if is_auth_error st && attempt == 0 then
        if refreshOk then
          let rest := postLoop oracle refreshOk newTok max_retries newTok (attempt + 1) fuel
          (.call tok :: .refreshCall :: rest.1, rest.2)
        else if is_server_error st && attempt < max_retries - 1 then
          let rest := postLoop oracle refreshOk newTok max_retries tok (attempt + 1) fuel
          (.call tok :: .refreshCall :: .sleepBackoff attempt :: rest.1, rest.2)
        else
          ([.call tok, .refreshCall], .raisedApi st)
      else if is_server_error st && attempt < max_retries - 1 then
        let rest := postLoop oracle refreshOk newTok max_retries tok (attempt + 1) fuel
        (.call tok :: .sleepBackoff attempt :: rest.1, rest.2)
      else
        ([.call tok], .raisedApi st)
    | .genericErr =>
      if attempt < max_retries - 1 then
        let rest := postLoop oracle refreshOk newTok max_retries tok (attempt + 1) fuel
        (.call tok :: .sleepBackoff attempt :: rest.1, rest.2)
      else
        ([.call tok], .raisedWrapped max_retries)

/-- `ApiClient.post` (src/api_client.py:242-312): the loop starts at
iteration 0 with headers built from the client's current access token;
the Python default is `max_retries = 3`. -/
def post (oracle : Nat → AttemptResult) (refreshOk : Bool)
    (tok newTok : Option Nat) (max_retries : Nat) : List Event × PostOutcome :=
  postLoop oracle refreshOk newTok max_retries tok 0 max_retries

/-- Whether an event is an invocation of `_try_refresh_token`. -/
def eventIsRefresh : Event → Bool
  | .refreshCall => true
  | _ => false

/-- Number of `_try_refresh_token` invocations recorded in a trace. -/
def countRefresh (evs : List Event) : Nat :=
  evs.countP eventIsRefresh

/-- One page body returned by `pull_changes`, as read by `pull_all_cards`
(src/api_client.py:692-740) through `result.get(...)`. Cards and note-type
entries are abstracted as natural-number identifiers. Absent optional
fields are `none`; `has_more` is read with `result.get('has_more', False)`
so an absent field and an explicit `false` coincide. -/
structure PullResp where
  success : Bool
  cards : List Nat
  note_types : List Nat
  total_cards : Option Nat
  latest_change_id : Option Nat
  has_more : Bool
  next_offset : Option Nat
  deriving DecidableEq

/-- Value returned by `pull_all_cards`: either a failing page's body handed
back verbatim (`return result`, src/api_client.py:709-710) or the final
aggregated dictionary built at src/api_client.py:734-740. -/
inductive PullAllResult where
  | page (r : PullResp)
  | aggregated (cards note_types : List Nat) (total_cards : Nat)
      (latest_change_id : Option Nat)
  deriving DecidableEq

/-- The `while True` loop of `ApiClient.pull_all_cards`
(src/api_client.py:701-732). `server offset` is the page body the server
returns for that offset (with `full_sync=True` and `limit` fixed).
Arguments mirror the Python locals `all_cards`, `note_types`,
`latest_change_id`, `total_cards`, `offset`. The loop need not terminate
for an adversarial server, hence the fuel; `none` means fuel ran out.
Branch order follows the source: the `success` check, accumulation, the
first-page metadata capture (`if offset == 0`), the defensive
`has_more` upgrade for a full page, the break test, then the offset
advance `result.get('next_offset', offset + limit)`. -/
def pullLoop (server : Nat → PullResp) (limit : Nat) :
    List Nat → List Nat → Option Nat → Nat → Nat → Nat → Option PullAllResult
  | _, _, _, _, _, 0 => none
  | all_cards, note_types, latest, total, offset, fuel + 1 =>
    let result := server offset
    if result.success = false then some (.page result)
    else
      let cards := result.cards
      let all' := all_cards ++ cards
      let note_types' := if offset == 0 then result.note_types else note_types
      let total' := if offset == 0 then result.total_cards.getD cards.length else total
      let latest' := if offset == 0 then result.latest_change_id else latest
      let hm := result.has_more
      let hm' := if hm = false && cards.length == limit then true else hm
      if hm' = false || cards.length == 0 then
        some (.aggregated all' note_types' all'.length latest')
      else
        pullLoop server limit all' note_types' latest' total'
          (result.next_offset.getD (offset + limit)) fuel

/-- `ApiClient.pull_all_cards` (src/api_client.py:692-740): initial state
`all_cards = []`, `note_types = []`, `latest_change_id = None`,
`total_cards = 0`, `offset = 0`, `limit = 1000`. -/
def pull_all_cards (server : Nat → PullResp) (fuel : Nat) : Option PullAllResult :=
  pullLoop server 1000 [] [] none 0 0 fuel

/-- Concrete three-page server for the pagination scenario of the spec:
pages of sizes 1000, 1000, 400 at offsets 0, 1000, 2000 with
`has_more = true, true, false`, all successful. The pages partition
`List.range 2400`, and the metadata fields (`note_types`, `total_cards`,
`latest_change_id`) differ across pages so that any overwriting by a later
page would be visible in the result. -/
def serverC4 : Nat → PullResp := fun offset =>
  if offset == 0 then
    ⟨true, (List.range 2400).take 1000, [7, 8], some 2400, some 99, true, some 1000⟩
  else if offset == 1000 then
    ⟨true, ((List.range 2400).drop 1000).take 1000, [11], some 1111, some 55,
      true, some 2000⟩
  else
    ⟨true, (List.range 2400).drop 2000, [12], some 2222, some 56, false, none⟩

/-- Concrete server whose first page (offset 0) succeeds with two cards and
`next_offset = 50`, and whose second page (offset 50) has `success = false`
with an empty body. -/
def serverC10 : Nat → PullResp := fun offset =>
  if offset == 0 then ⟨true, [1, 2], [5], some 4, some 9, true, some 50⟩
  else ⟨false, [], [], none, none, false, none⟩

/-- Response of the `/addon-refresh-token` endpoint as read by
`_try_refresh_token` through `result.get(...)`. Tokens are abstracted as
natural-number identifiers. -/
structure RefreshResp where
  success : Bool
  access_token : Option Nat
  refresh_token : Option Nat
  deriving DecidableEq

/-- State touched by `_try_refresh_token`: the client's in-memory
`access_token`, plus the external credential store.
Modelled from the spec: the config store (`config.get_refresh_token`,
`config.save_tokens` from the repository's `config` module, which is not
under src/) is, per spec §4.4, a plain external credential store that hands
back the stored refresh token and persists `{access_token, refresh_token}`
on save. `endpoint_calls` counts network calls to the refresh endpoint. -/
structure RefreshState where
  access_token : Option Nat
  stored_refresh_token : Option Nat
  stored_access_token : Option Nat
  endpoint_calls : Nat
  deriving DecidableEq

/-- `ApiClient._try_refresh_token` (src/api_client.py:314-353), the body
that runs under `self._refresh_lock`. `endpoint rt` is the parsed response
of the refresh endpoint for refresh token `rt`; the call is counted
whenever it is issued (i.e. whenever a stored refresh token exists):
the source calls `self.refresh_token(refresh_token)` unconditionally after
the `if not refresh_token` guard — there is no check whether another
caller already refreshed. On success with an access token present it saves
`(new_access, result.get('refresh_token', refresh_token))` and installs
`new_access` in memory; otherwise it returns `False` leaving tokens
untouched. -/
def try_refresh_token (endpoint : Nat → RefreshResp) (s : RefreshState) :
    Bool × RefreshState :=
  match s.stored_refresh_token with
  | none => (false, s)
  | some rt =>
    let s1 : RefreshState := { s with endpoint_calls := s.endpoint_calls + 1 }
    let result := endpoint rt
    if result.success then
      match result.access_token with
      | some new_access =>
        let new_refresh := result.refresh_token.getD rt
        (true, { s1 with
                  access_token := some new_access,
                  stored_refresh_token := some new_refresh,
                  stored_access_token := some new_access })
      | none => (false, s1)
    else (false, s1)

/-- `n` refresh triggers against one client instance. The body of
`_try_refresh_token` runs entirely under the instance's mutual-exclusion
lock `self._refresh_lock`, so any concurrent execution of `n` triggers is
observationally some serial order of the `n` bodies; this function is that
serialization. It returns the list of `(returned bool, access token the
caller observes right after its own refresh)` pairs together with the
final state. -/
def serializedRefreshes (endpoint : Nat → RefreshResp) :
    Nat → RefreshState → List (Bool × Option Nat) × RefreshState
  | 0, s => ([], s)
  | n + 1, s =>
    let one := try_refresh_token endpoint s
    let rest := serializedRefreshes endpoint n one.2
    ((one.1, one.2.access_token) :: rest.1, rest.2)

/-! ## Theorems -/

/-- An auth status (401 or 403) is never a 5xx server status. -/
theorem auth_not_server (st : Option Nat) (h : is_auth_error st = true) :
    is_server_error st = false := by
  cases st with
  | none => simp [is_auth_error] at h
  | some s =>
    simp only [is_auth_error, Bool.or_eq_true, beq_iff_eq] at h
    rcases h with h | h <;> simp [is_server_error, h]

/-- `countRefresh` distributes over cons. -/
theorem countRefresh_cons (e : Event) (evs : List Event) :
    countRefresh (e :: evs) =
      countRefresh evs + (if eventIsRefresh e then 1 else 0) := by
  simp [countRefresh, List.countP_cons]

/-- `countRefresh` of the empty trace. -/
theorem countRefresh_nil : countRefresh [] = 0 := rfl

/-- From iteration 1 on, `postLoop` never invokes `_try_refresh_token`:
the refresh guard requires `attempt == 0`. -/
theorem postLoop_no_refresh_after_first
    (oracle : Nat → AttemptResult) (refreshOk : Bool) (newTok : Option Nat)
    (max_retries : Nat) :
    ∀ fuel tok attempt, 1 ≤ attempt →
      countRefresh (postLoop oracle refreshOk newTok max_retries tok attempt fuel).1 = 0 := by
  intro fuel
  induction fuel with
  | zero => intro tok attempt _; simp [postLoop, countRefresh_nil]
  | succ n ih =>
    intro tok attempt hatt
    have hne : (attempt == 0) = false := by
      simp only [beq_eq_false_iff_ne]; omega
    cases hcase : oracle attempt with
    | ok => simp [postLoop, hcase, countRefresh_cons, countRefresh_nil, eventIsRefresh]
    | rateLimitErr ra =>
      by_cases hlt : attempt < max_retries - 1 <;>
        simp [postLoop, hcase, hlt, countRefresh_cons, countRefresh_nil,
          eventIsRefresh, ih tok (attempt + 1) (by omega)]
    | apiErr st =>
      have hand : (is_auth_error st && (attempt == 0)) = false := by
        simp [hne]
      by_cases hsrv : is_server_error st = true
      · by_cases hlt : attempt < max_retries - 1 <;>
          simp [postLoop, hcase, hand, hsrv, hlt, countRefresh_cons, countRefresh_nil,
            eventIsRefresh, ih tok (attempt + 1) (by omega)]
      · rw [Bool.not_eq_true] at hsrv
        simp [postLoop, hcase, hand, hsrv, countRefresh_cons, countRefresh_nil,
          eventIsRefresh]
    | genericErr =>
      by_cases hlt : attempt < max_retries - 1 <;>
        simp [postLoop, hcase, hlt, countRefresh_cons, countRefresh_nil,
          eventIsRefresh, ih tok (attempt + 1) (by omega)]

/-- Over a whole run of `post`, `_try_refresh_token` is invoked at most
once, whatever the oracle, refresh outcome and `max_retries`. -/
theorem post_refresh_at_most_once
    (oracle : Nat → AttemptResult) (refreshOk : Bool) (tok newTok : Option Nat)
    (max_retries : Nat) :
    countRefresh (post oracle refreshOk tok newTok max_retries).1 ≤ 1 := by
  unfold post
  cases max_retries with
  | zero => simp [postLoop, countRefresh_nil]
  | succ n =>
    have hz := postLoop_no_refresh_after_first oracle refreshOk newTok (n + 1) n
    cases hcase : oracle 0 with
    | ok => simp [postLoop, hcase, countRefresh_cons, countRefresh_nil, eventIsRefresh]
    | rateLimitErr ra =>
      by_cases hlt : (0:Nat) < n <;>
        simp [postLoop, hcase, hlt, countRefresh_cons, countRefresh_nil,
          eventIsRefresh, hz tok 1 le_rfl, hz newTok 1 le_rfl]
    | apiErr st =>
      by_cases hauth : is_auth_error st = true
      · cases refreshOk with
        | true =>
          simp [postLoop, hcase, hauth, countRefresh_cons, countRefresh_nil,
            eventIsRefresh, hz newTok 1 le_rfl]
        | false =>
          simp [postLoop, hcase, hauth, auth_not_server st hauth, countRefresh_cons,
            countRefresh_nil, eventIsRefresh]
      · rw [Bool.not_eq_true] at hauth
        by_cases hsrv : is_server_error st = true
        · by_cases hlt : (0:Nat) < n <;>
            simp [postLoop, hcase, hauth, hsrv, hlt, countRefresh_cons,
              countRefresh_nil, eventIsRefresh, hz tok 1 le_rfl]
        · rw [Bool.not_eq_true] at hsrv
          simp [postLoop, hcase, hauth, hsrv, countRefresh_cons, countRefresh_nil,
            eventIsRefresh]
    | genericErr =>
      by_cases hlt : (0:Nat) < n <;>
        simp [postLoop, hcase, hlt, countRefresh_cons, countRefresh_nil,
          eventIsRefresh, hz tok 1 le_rfl]

/-- C8: for every attempt index `a ≥ 0` and every jitter draw
`r = random.random() ∈ [0, 1)`, the delay returned by
`exponential_backoff_with_jitter(a)` with `base = 1`s and `cap = 32`s
satisfies `0.5 * min(1 * 2^a, 32) ≤ delay ≤ min(1 * 2^a, 32)`. -/
theorem backoff_delay_within_bounds (attempt : Nat) (r : ℚ)
    (h0 : 0 ≤ r) (h1 : r < 1) :
    (1/2) * min ((1:ℚ) * 2 ^ attempt) 32 ≤
        exponential_backoff_with_jitter attempt 1 32 r ∧
    exponential_backoff_with_jitter attempt 1 32 r ≤
        min ((1:ℚ) * 2 ^ attempt) 32 := by
  simp only [exponential_backoff_with_jitter]
  have h2 : (0:ℚ) < 2 ^ attempt := by positivity
  have hm : (0:ℚ) ≤ min ((1:ℚ) * 2 ^ attempt) 32 :=
    le_min (by linarith) (by norm_num)
  constructor
  · nlinarith [hm, h0]
  · nlinarith [hm, h1]

/-- Witness for C8 at `attempt = 3`, `r = 1/2`. -/
theorem backoff_delay_within_bounds_witness :
    (1/2) * min ((1:ℚ) * 2 ^ 3) 32 ≤
        exponential_backoff_with_jitter 3 1 32 (1/2) ∧
    exponential_backoff_with_jitter 3 1 32 (1/2) ≤
        min ((1:ℚ) * 2 ^ 3) 32 :=
  backoff_delay_within_bounds 3 (1/2) (by norm_num) (by norm_num)

/-- C2 counterexample: with `max_retries = 1`, an AuthFailed (401) outcome
on the first attempt still triggers the refresh, and the refresh succeeds,
but the request is NOT retried: the loop exhausts, only one transport call
occurs, and the surfaced error is the generic "Maximum retries exceeded"
`AnkiPHAPIError`, not two transport calls ending in a result. This refutes
the claim's unconditional "if the refresh succeeds the request is retried
... so exactly 2 transport calls occur". -/
theorem auth_refresh_not_retried_cex :
    post (fun _ => AttemptResult.apiErr (some 401)) true (some 1) (some 2) 1 =
      ([.call (some 1), .refreshCall], .raisedMaxRetries) := by
  decide

/-- C2 amended: for a logical request with `max_attempts ≥ 2`, an
AuthFailed outcome (401/403) on the first attempt triggers exactly one
credential refresh; if the refresh succeeds the request is retried
immediately — the very next event is a transport call whose headers are
built from the new credential, with no backoff sleep in between — so a
retry that resolves gives exactly 2 transport calls (shown both for a
success and for a second AuthFailed, which is propagated immediately); if
the refresh fails the AuthFailed error is propagated immediately; and for
every request, whatever `max_attempts`, refresh is attempted at most once.
(With `max_attempts = 1` the refresh still happens but no retry follows;
see the counterexample.) -/
theorem auth_failed_refresh_behavior
    (oracle : Nat → AttemptResult) (tok newTok : Option Nat)
    (max_retries : Nat) (st : Option Nat)
    (h0 : oracle 0 = .apiErr st) (hauth : is_auth_error st = true)
    (hmr : 2 ≤ max_retries) :
    (post oracle true tok newTok max_retries =
        (.call tok :: .refreshCall ::
            (postLoop oracle true newTok max_retries newTok 1 (max_retries - 1)).1,
          (postLoop oracle true newTok max_retries newTok 1 (max_retries - 1)).2)) ∧
    (oracle 1 = .ok →
      post oracle true tok newTok max_retries =
        ([.call tok, .refreshCall, .call newTok], .ok)) ∧
    (∀ st', oracle 1 = .apiErr st' → is_auth_error st' = true →
      post oracle true tok newTok max_retries =
        ([.call tok, .refreshCall, .call newTok], .raisedApi st')) ∧
    (post oracle false tok newTok max_retries =
        ([.call tok, .refreshCall], .raisedApi st)) ∧
    (∀ oracle' rOk tok' newTok' mr,
      countRefresh (post oracle' rOk tok' newTok' mr).1 ≤ 1) := by
  obtain ⟨k, rfl⟩ : ∃ k, max_retries = k + 2 := ⟨max_retries - 2, by omega⟩
  have hstep : postLoop oracle true newTok (k + 2) tok 0 (k + 2) =
      (.call tok :: .refreshCall ::
          (postLoop oracle true newTok (k + 2) newTok 1 (k + 1)).1,
        (postLoop oracle true newTok (k + 2) newTok 1 (k + 1)).2) := by
    simp [postLoop, h0, hauth]
  refine ⟨?_, ?_, ?_, ?_, ?_⟩
  · show postLoop oracle true newTok (k + 2) tok 0 (k + 2) = _
    rw [hstep]
    norm_num
  · intro h1
    show postLoop oracle true newTok (k + 2) tok 0 (k + 2) = _
    rw [hstep]
    simp [postLoop, h1]
  · intro st' h1 hauth'
    show postLoop oracle true newTok (k + 2) tok 0 (k + 2) = _
    rw [hstep]
    simp [postLoop, h1, hauth', auth_not_server st' hauth']
  · show postLoop oracle false newTok (k + 2) tok 0 (k + 2) = _
    simp [postLoop, h0, hauth, auth_not_server st hauth]
  · intro oracle' rOk tok' newTok' mr
    exact post_refresh_at_most_once oracle' rOk tok' newTok' mr

/-- Witness for C2's amended theorem: a 401 on attempt 0, successful
refresh, and a success on the retry give exactly the trace
call–refresh–call and an `ok` outcome. -/
theorem auth_failed_refresh_behavior_witness :
    post (fun n => if n == 0 then AttemptResult.apiErr (some 401) else .ok)
        true (some 1) (some 2) 3 =
      ([.call (some 1), .refreshCall, .call (some 2)], .ok) :=
  (auth_failed_refresh_behavior
    (fun n => if n == 0 then AttemptResult.apiErr (some 401) else .ok)
    (some 1) (some 2) 3 (some 401) rfl rfl (by norm_num)).2.1 rfl

/-- C3: when the transport raises `AnkiPHRateLimitError(retry_after = ra)`
in iteration `attempt` and attempts remain, `post` sleeps exactly `ra`
seconds (event `sleepRate ra`, no jitter) and retries in iteration
`attempt + 1`, consuming one attempt slot; on the final attempt the
rate-limit error is re-raised verbatim, carrying `ra`, not wrapped. -/
theorem rate_limited_sleeps_exactly_then_retries
    (oracle : Nat → AttemptResult) (refreshOk : Bool) (newTok tok : Option Nat)
    (max_retries attempt fuel ra : Nat)
    (h : oracle attempt = .rateLimitErr ra) :
    (attempt < max_retries - 1 →
      postLoop oracle refreshOk newTok max_retries tok attempt (fuel + 1) =
        (.call tok :: .sleepRate ra ::
            (postLoop oracle refreshOk newTok max_retries tok (attempt + 1) fuel).1,
          (postLoop oracle refreshOk newTok max_retries tok (attempt + 1) fuel).2)) ∧
    (¬ attempt < max_retries - 1 →
      postLoop oracle refreshOk newTok max_retries tok attempt (fuel + 1) =
        ([.call tok], .raisedRateLimit ra)) := by
  constructor <;> intro hlt <;> simp [postLoop, h, hlt]

/-- Witness for C3: a server that always answers 429 with `Retry-After: 5`;
with `max_retries = 3` the first iteration sleeps exactly 5 seconds and
retries. -/
theorem rate_limited_sleeps_exactly_witness :
    postLoop (fun _ => AttemptResult.rateLimitErr 5) true none 3 none 0 3 =
      (.call none :: .sleepRate 5 ::
          (postLoop (fun _ => AttemptResult.rateLimitErr 5) true none 3 none 1 2).1,
        (postLoop (fun _ => AttemptResult.rateLimitErr 5) true none 3 none 1 2).2) :=
  (rate_limited_sleeps_exactly_then_retries (fun _ => AttemptResult.rateLimitErr 5)
    true none none 3 0 2 5 rfl).1 (by norm_num)

/-- C1 counterexample: a connectivity failure (timeout or connection
error) is wrapped by `_post_with_requests` as an `AnkiPHAPIError` with no
status code, and `post` with `max_retries = 3` surfaces it after a single
transport call — no backoff sleep, no retry — although two attempts
remained. This contradicts the claim that transport failures are retried
with backoff while attempts remain. -/
theorem transport_failure_not_retried_cex :
    post_with_requests .timeout = .apiErr none ∧
    post_with_requests .connectionFailure = .apiErr none ∧
    post (fun _ => AttemptResult.apiErr none) true none none 3 =
      ([.call none], .raisedApi none) := by
  refine ⟨rfl, rfl, ?_⟩
  decide

/-- C1 amended: an attempt that ends in a transport/connectivity failure
(DNS failure, connection error, timeout — all wrapped as a status-less
`AnkiPHAPIError` by both transport helpers) is never retried: `post`
re-raises it on the attempt in which it occurs, with no backoff sleep,
regardless of how many attempts remain; only 5xx `ServerError` outcomes
take the backoff-and-retry path. -/
theorem transport_failure_surfaces_immediately
    (oracle : Nat → AttemptResult) (refreshOk : Bool) (newTok tok : Option Nat)
    (max_retries attempt fuel : Nat)
    (h : oracle attempt = .apiErr none) :
    postLoop oracle refreshOk newTok max_retries tok attempt (fuel + 1) =
      ([.call tok], .raisedApi none) ∧
    post_with_requests .timeout = .apiErr none ∧
    post_with_requests .connectionFailure = .apiErr none ∧
    post_with_requests .otherNetworkExc = .apiErr none ∧
    post_with_urllib .urlError = .apiErr none := by
  refine ⟨?_, rfl, rfl, rfl, rfl⟩
  simp [postLoop, h, is_auth_error, is_server_error]

/-- Witness for C1's amended theorem at a concrete run. -/
theorem transport_failure_surfaces_immediately_witness :
    postLoop (fun _ => AttemptResult.apiErr none) true none 3 none 0 3 =
      ([.call none], .raisedApi none) :=
  (transport_failure_surfaces_immediately (fun _ => AttemptResult.apiErr none)
    true none none 3 0 2 rfl).1

/-- C4: against a server serving successful pages of sizes 1000, 1000, 400
with `has_more = true, true, false`, `pull_all_cards` returns a success
result whose cards are exactly the concatenation of the three pages —
`List.range 2400`, 2400 items with no duplicates — and whose `note_types`
and `latest_change_id` are the first page's (`[7, 8]` and `99`), not the
differing values of the later pages. -/
theorem pull_all_cards_three_pages :
    pull_all_cards serverC4 4 =
      some (.aggregated (List.range 2400) [7, 8] 2400 (some 99)) ∧
    (List.range 2400).Nodup ∧
    (List.range 2400).length = 2400 ∧
    serverC4 0 = ⟨true, (List.range 2400).take 1000, [7, 8], some 2400, some 99,
      true, some 1000⟩ := by
  refine ⟨?_, List.nodup_range 2400, List.length_range 2400, rfl⟩
  have hdd : ((List.range 2400).drop 1000).drop 1000 = (List.range 2400).drop 2000 := by
    rw [List.drop_drop]
  have h1 : ((List.range 2400).drop 1000).take 1000 ++ ((List.range 2400).drop 1000).drop 1000 =
      (List.range 2400).drop 1000 := List.take_append_drop 1000 _
  have h3 : (List.range 2400).take 1000 ++ (List.range 2400).drop 1000 =
      List.range 2400 := List.take_append_drop 1000 _
  have happ : (List.range 2400).take 1000 ++
      (((List.range 2400).drop 1000).take 1000 ++ (List.range 2400).drop 2000) =
      List.range 2400 := by
    rw [← hdd, h1, h3]
  have hp1 : ((List.range 2400).take 1000).length = 1000 := by
    simp
  have hp2 : (((List.range 2400).drop 1000).take 1000).length = 1000 := by
    simp
  have hp3 : ((List.range 2400).drop 2000).length = 400 := by
    simp
  have hlen : ((List.range 2400).take 1000 ++
      (((List.range 2400).drop 1000).take 1000 ++ (List.range 2400).drop 2000)).length =
      2400 := by
    rw [happ]; exact List.length_range 2400
  simp [pull_all_cards, pullLoop, serverC4, hp1, hp2, hp3, List.append_assoc,
    happ, hlen]

/-- C5: one iteration of the `pull_all_cards` loop on a successful page:
(a) a page of exactly `limit` items with `has_more` absent/false is treated
as having more pages — the loop continues, advancing the offset to the
server-declared `next_offset` (or `offset + limit` when it is absent, via
`Option.getD`); (b) a page with zero items terminates the loop; (c) a page
with `has_more` false that is not full terminates the loop. -/
theorem pull_loop_step_behavior
    (server : Nat → PullResp) (limit : Nat)
    (all_cards note_types : List Nat) (latest : Option Nat)
    (total offset fuel : Nat)
    (hs : (server offset).success = true) :
    ((server offset).has_more = false → (server offset).cards.length = limit →
      0 < limit →
      pullLoop server limit all_cards note_types latest total offset (fuel + 1) =
        pullLoop server limit (all_cards ++ (server offset).cards)
          (if offset == 0 then (server offset).note_types else note_types)
          (if offset == 0 then (server offset).latest_change_id else latest)
          (if offset == 0 then
            ((server offset).total_cards.getD (server offset).cards.length)
          else total)
          ((server offset).next_offset.getD (offset + limit)) fuel) ∧
    ((server offset).cards = [] →
      pullLoop server limit all_cards note_types latest total offset (fuel + 1) =
        some (.aggregated all_cards
          (if offset == 0 then (server offset).note_types else note_types)
          all_cards.length
          (if offset == 0 then (server offset).latest_change_id else latest))) ∧
    ((server offset).has_more = false → (server offset).cards.length ≠ limit →
      pullLoop server limit all_cards note_types latest total offset (fuel + 1) =
        some (.aggregated (all_cards ++ (server offset).cards)
          (if offset == 0 then (server offset).note_types else note_types)
          (all_cards ++ (server offset).cards).length
          (if offset == 0 then (server offset).latest_change_id else latest))) := by
  refine ⟨?_, ?_, ?_⟩
  · intro hm hlen hpos
    have hbeq : ((server offset).cards.length == limit) = true := by simp [hlen]
    have hz : ((server offset).cards.length == 0) = false := by
      simp only [beq_eq_false_iff_ne]; omega
    simp [pullLoop, hs, hm, hbeq, hz]
  · intro hnil
    simp [pullLoop, hs, hnil]
  · intro hm hlen
    have hbeq : ((server offset).cards.length == limit) = false := by
      simp only [beq_eq_false_iff_ne]; exact hlen
    simp [pullLoop, hs, hm, hbeq]

/-- Witness for C5 at a concrete server: the first page is full
(2 items, `limit = 2`) with `has_more = false`, and the loop continues at
the declared `next_offset = 7`, capturing the first page's metadata. -/
theorem pull_loop_step_behavior_witness :
    pullLoop
      (fun o => if o == 0 then
        PullResp.mk true [1, 2] [3] none (some 4) false (some 7)
      else PullResp.mk true [] [] none none false none)
      2 [] [] none 0 0 2 =
    pullLoop
      (fun o => if o == 0 then
        PullResp.mk true [1, 2] [3] none (some 4) false (some 7)
      else PullResp.mk true [] [] none none false none)
      2 [1, 2] [3] (some 4) 2 7 1 :=
  (pull_loop_step_behavior
    (fun o => if o == 0 then
      PullResp.mk true [1, 2] [3] none (some 4) false (some 7)
    else PullResp.mk true [] [] none none false none)
    2 [] [] none 0 0 1 rfl).1 rfl rfl (by norm_num)

/-- C10: when a fetched page has a falsy `success`, `pull_all_cards`
immediately returns that page's body unchanged as its own result
(constructor `.page`), whatever has been accumulated so far; in the
concrete run the first page's cards `[1, 2]` were accumulated and the
returned value is the failing page's body, whose card list is empty, so
the accumulated cards are absent from the returned value. -/
theorem failing_page_returned_verbatim
    (server : Nat → PullResp) (limit : Nat)
    (all_cards note_types : List Nat) (latest : Option Nat)
    (total offset fuel : Nat)
    (h : (server offset).success = false) :
    (pullLoop server limit all_cards note_types latest total offset (fuel + 1) =
      some (.page (server offset))) ∧
    pull_all_cards serverC10 3 = some (.page (serverC10 50)) ∧
    (serverC10 50).cards = [] := by
  refine ⟨?_, by decide, rfl⟩
  simp [pullLoop, h]

/-- Witness for C10 at the concrete failing server. -/
theorem failing_page_returned_verbatim_witness :
    pullLoop serverC10 1000 [1, 2] [5] (some 9) 4 50 3 =
      some (.page (serverC10 50)) :=
  (failing_page_returned_verbatim serverC10 1000 [1, 2] [5] (some 9) 4 50 2 rfl).1

/-- C6 counterexample: a response with HTTP status 503 whose body does not
parse is raised by `_post_with_requests` as an `AnkiPHAPIError` carrying
`status_code = 503` — an InvalidResponse outcome — and `post` with
`max_retries = 3` then treats it as a server error: it sleeps a backoff
delay and retries with a second transport call. This refutes the claim
that InvalidResponse outcomes are never retried whatever status they
carry. -/
theorem invalid_response_retried_cex :
    post_with_requests (.response 503 none false) = .apiErr (some 503) ∧
    post (fun n => if n == 0 then AttemptResult.apiErr (some 503) else .ok)
        true none none 3 =
      ([.call none, .sleepBackoff 0, .call none], .ok) := by
  exact ⟨rfl, by decide⟩

/-- C6 amended: ClientError outcomes — status in `[400, 500)` other than
401, 403 and 429 — are never retried: no backoff sleep, no refresh, the
error is propagated on the attempt in which it occurs. An InvalidResponse
outcome (non-parseable body) is raised as an `AnkiPHAPIError` carrying the
response's status code and is then dispatched by that status like any
other API error: in particular a 5xx invalid response IS retried with
backoff while attempts remain. -/
theorem client_error_not_retried_invalid_by_status
    (oracle : Nat → AttemptResult) (refreshOk : Bool) (newTok tok : Option Nat)
    (max_retries attempt fuel : Nat) (s : Nat)
    (h : oracle attempt = .apiErr (some s)) :
    (400 ≤ s → s < 500 → s ≠ 401 → s ≠ 403 → s ≠ 429 →
      postLoop oracle refreshOk newTok max_retries tok attempt (fuel + 1) =
        ([.call tok], .raisedApi (some s))) ∧
    (∀ status retryAfterHeader,
      post_with_requests (.response status retryAfterHeader false) =
        .apiErr (some status)) ∧
    (500 ≤ s → s < 600 → attempt < max_retries - 1 →
      postLoop oracle refreshOk newTok max_retries tok attempt (fuel + 1) =
        (.call tok :: .sleepBackoff attempt ::
            (postLoop oracle refreshOk newTok max_retries tok (attempt + 1) fuel).1,
          (postLoop oracle refreshOk newTok max_retries tok (attempt + 1) fuel).2)) := by
  refine ⟨?_, fun status retryAfterHeader => rfl, ?_⟩
  · intro h4 h5 hn1 hn3 _
    have hauth : is_auth_error (some s) = false := by
      simp only [is_auth_error, Bool.or_eq_false_iff, beq_eq_false_iff_ne]
      exact ⟨hn1, hn3⟩
    have hsrv : is_server_error (some s) = false := by
      simp only [is_server_error, Bool.and_eq_false_iff, decide_eq_false_iff_not]
      left; omega
    simp [postLoop, h, hauth, hsrv]
  · intro h5 h6 hlt
    have hauth : is_auth_error (some s) = false := by
      simp only [is_auth_error, Bool.or_eq_false_iff, beq_eq_false_iff_ne]
      omega
    have hsrv : is_server_error (some s) = true := by
      simp only [is_server_error, Bool.and_eq_true, decide_eq_true_eq]
      omega
    simp [postLoop, h, hauth, hsrv, hlt]

/-- Witness for C6's amended theorem: a 404 ClientError on the first of 3
attempts is propagated at once, with one transport call and no sleep. -/
theorem client_error_not_retried_witness :
    postLoop (fun _ => AttemptResult.apiErr (some 404)) true none 3 none 0 3 =
      ([.call none], .raisedApi (some 404)) :=
  (client_error_not_retried_invalid_by_status
    (fun _ => AttemptResult.apiErr (some 404)) true none none 3 0 2 404 rfl).1
    (by norm_num) (by norm_num) (by norm_num) (by norm_num) (by norm_num)

/-- C7: on an HTTP 429 both transports take `retry_after` from a numeric
`Retry-After` header and default to 60 when it is absent, and the urllib
transport also defaults to 60 when the header is malformed; but in the
`requests` transport a present non-numeric header makes
`int(resp.headers.get('Retry-After', 60))` raise `ValueError`, which is
not an `AnkiPHAPIError`, so instead of a rate-limit error with
`retry_after = 60` the attempt ends in a generic exception that `post`
retries with backoff and finally wraps into the generic "Request failed
after 3 attempts" error. The last conjunct traces that run. -/
theorem retry_after_malformed_divergence :
    post_with_requests (.response 429 (some (some 5)) true) = .rateLimitErr 5 ∧
    post_with_requests (.response 429 none true) = .rateLimitErr 60 ∧
    post_with_urllib (.httpError 429 (some (some 5)) true) = .rateLimitErr 5 ∧
    post_with_urllib (.httpError 429 none true) = .rateLimitErr 60 ∧
    post_with_urllib (.httpError 429 (some none) true) = .rateLimitErr 60 ∧
    post_with_requests (.response 429 (some none) true) = .genericErr ∧
    post (fun _ => AttemptResult.genericErr) true none none 3 =
      ([.call none, .sleepBackoff 0, .call none, .sleepBackoff 1, .call none],
        .raisedWrapped 3) := by
  refine ⟨rfl, rfl, rfl, rfl, rfl, rfl, by decide⟩

/-- C9 counterexample: two refresh triggers serialized by the instance
lock (the lock makes the bodies atomic, so any concurrent execution is a
serial order of the bodies) against a client with a stored refresh token
and an endpoint that always succeeds produce TWO network calls to the
refresh endpoint, not one: `_try_refresh_token` calls the endpoint
unconditionally whenever a refresh token is stored — there is no
already-refreshed check. -/
theorem concurrent_refresh_one_call_cex :
    (serializedRefreshes (fun _ => ⟨true, some 9, none⟩) 2
        ⟨some 1, some 5, some 1, 0⟩).2.endpoint_calls = 2 ∧
    ¬ (serializedRefreshes (fun _ => ⟨true, some 9, none⟩) 2
        ⟨some 1, some 5, some 1, 0⟩).2.endpoint_calls = 1 := by
  decide

/-- C9 amended: N refresh triggers on one client instance execute under
the mutual-exclusion lock, hence as some serialization of the N bodies;
with a stored refresh token and an endpoint that always succeeds with the
same access token, EACH of the N callers performs its own network refresh
call — N calls in total, not one — each caller returns `True`, and all N
callers observe the same resulting credential (the endpoint's token). -/
theorem serialized_refreshes_each_call_network
    (endpoint : Nat → RefreshResp) (a : Nat)
    (hend : ∀ x, endpoint x = ⟨true, some a, none⟩) :
    ∀ n s rt, s.stored_refresh_token = some rt →
      (serializedRefreshes endpoint n s).1 = List.replicate n (true, some a) ∧
      (serializedRefreshes endpoint n s).2.endpoint_calls = s.endpoint_calls + n := by
  intro n
  induction n with
  | zero => intro s rt _; simp [serializedRefreshes]
  | succ m ih =>
    intro s rt h
    have h1 : try_refresh_token endpoint s =
        (true, ⟨some a, some rt, some a, s.endpoint_calls + 1⟩) := by
      simp [try_refresh_token, h, hend rt]
    have h2 := ih ⟨some a, some rt, some a, s.endpoint_calls + 1⟩ rt rfl
    simp only [serializedRefreshes, h1, h2.1, h2.2, List.replicate_succ]
    exact ⟨trivial, by omega⟩

/-- Witness for C9's amended theorem: three serialized refresh triggers
give three endpoint calls and three callers all observing token 9. -/
theorem serialized_refreshes_each_call_witness :
    (serializedRefreshes (fun _ => ⟨true, some 9, none⟩) 3
        ⟨some 1, some 5, some 1, 0⟩).1 = List.replicate 3 (true, some 9) ∧
    (serializedRefreshes (fun _ => ⟨true, some 9, none⟩) 3
        ⟨some 1, some 5, some 1, 0⟩).2.endpoint_calls = 0 + 3 :=
  serialized_refreshes_each_call_network (fun _ => ⟨true, some 9, none⟩) 9
    (fun _ => rfl) 3 ⟨some 1, some 5, some 1, 0⟩ 5 rfl

end AnkiPH
